import Mathlib

/-
Shallow embedding of the polling-and-collection core of
prometheus-tapo-exporter (main.go, the version with bounded retry and
KLAP-error handling).  Device-protocol outcomes (handshake and the three
fetch operations) are inputs to the model: a `PlugBehavior` records, per
attempt number, what the device would answer.  Machine integers are
modelled as `Int` (all values written to gauges are integer-valued, and
`float64` conversion is exact on them); `strings.ToLower` is modelled by
`String.toLower`, which agrees with it on the ASCII model names involved.
`log.Fatalf` (process termination with a nonzero exit status) is modelled
by an explicit `fatal`/`fatalExit` outcome.
-/

namespace TapoExporter

/-- Device-info record returned by `plug.GetDeviceInfo` (fields used by main.go). -/
structure DeviceInfo where
  deviceID : String
  decodedNickname : String
  model : String
  mac : String
  oemID : String
  fwVersion : String
  hwVersion : String
  type : String
  hwID : String
  fwID : String
  ip : String
  timeDiff : Int
  decodedSSID : String
  rssi : Int
  signalLevel : Int
  latitude : Int
  longitude : Int
  lang : String
  avatar : String
  region : String
  specs : String
  hasSetLocationInfo : Bool
  deviceON : Bool
  onTime : Int
  overHeated : Bool
  powerProtectionStatus : String
  location : String
  deriving Repr, DecidableEq

/-- One time window of a usage counter (today / past 7 days / past 30 days). -/
structure UsageWindow where
  today : Int
  past7 : Int
  past30 : Int
  deriving Repr, DecidableEq

/-- Usage record returned by `plug.GetDeviceUsage`. -/
structure DeviceUsage where
  timeUsage : UsageWindow
  powerUsage : UsageWindow
  savedPower : UsageWindow
  deriving Repr, DecidableEq

/-- Energy record returned by `plug.GetEnergyUsage`. -/
structure EnergyUsage where
  todayRuntime : Int
  monthRuntime : Int
  todayEnergy : Int
  monthEnergy : Int
  electricityCharge : Int × Int × Int
  currentPower : Int
  deriving Repr, DecidableEq

/-- A login failure from `plug.Handshake`: its error text, and the numeric
`tapo.TapoError` code when `errors.As` can extract one. -/
structure LoginError where
  text : String
  tapoCode : Option Int
  deriving Repr, DecidableEq

/-- Log severity, read off the literal prefix of the Go log message
("Error:", "Warning:", or none). -/
inductive LogLevel where
  | error
  | warning
  | info
  deriving Repr, DecidableEq

/-- One log line. -/
structure LogEntry where
  level : LogLevel
  msg : String
  deriving Repr, DecidableEq

/-- The device-protocol oracle for one device in one poll cycle: the
handshake outcome (`none` = success) and, for each attempt number, the
outcome of each fetch operation. -/
structure PlugBehavior where
  handshake : Option LoginError
  getDeviceInfo : Nat → Except String DeviceInfo
  getDeviceUsage : Nat → Except String DeviceUsage
  getEnergyUsage : Nat → Except String EnergyUsage

/-- `modelsWithPowerInformation` from main.go: the fixed allow-list of
energy-capable model names. -/
def modelsWithPowerInformation : List String :=
  ["P110", "P115", "P125M"]

/-- `strings.ToLower`, character by character (the strings involved are
ASCII, where Go's and Lean's per-character lowercasing agree). -/
def strToLower (s : String) : String :=
  ⟨s.data.map Char.toLower⟩

/-- The capability classifier: the loop in main.go setting
`hasPowerInformation` by comparing `strings.ToLower(i.Model)` with
`strings.ToLower(m)` for each allow-list entry `m`. -/
def hasPowerInformation (model : String) : Bool :=
  modelsWithPowerInformation.any (fun m => strToLower model == strToLower m)

/-- `plugLogin` from main.go: on handshake error, log an error line; when
strict KLAP failure was not requested and the error carries TapoError code
1003, log a warning and report success (`none`); otherwise report the
error.  Returns the login outcome together with the log lines emitted. -/
def plugLogin (addr : String) (handshakeResult : Option LoginError)
    (stopOnKlapError : Bool) : Option LoginError × List LogEntry :=
  match handshakeResult with
  | none => (none, [])
  | some err =>
    let errLine : LogEntry :=
      ⟨LogLevel.error, "login failed for plug " ++ addr ++ ": " ++ err.text⟩
    if stopOnKlapError = false ∧ err.tapoCode = some 1003 then
      (none,
        [errLine,
         ⟨LogLevel.warning,
          "login failed for plug " ++ addr ++
            ", continuing because it's probably a firmware with the new KLAP protocol: " ++
            err.text⟩])
    else
      (some err, [errLine])

/-- `maxAttempts` from main.go. -/
def maxAttempts : Nat := 3

/-- Result of one bounded-retry fetch loop: the final outcome, the
`tapo_device_request_failed` counter increments it produced (one
`(address, error text)` pair per failed attempt), the number of sleeps of
the retry interval, and the number of attempts actually made. -/
structure RetryResult (α : Type) where
  result : Except String α
  failIncs : List (String × String)
  sleeps : Nat
  attempts : Nat
  deriving Repr

/-- The body of the retry loop in main.go: `attempt` is the current
attempt number, `remaining` the attempts still allowed (including the
current one).  A failed attempt increments the failure counter with the
plug address and the error text, and sleeps unless it was the last
attempt; the first success short-circuits the loop. -/
def retryAux (fetch : Nat → Except String α) (addr : String) :
    Nat → Nat → RetryResult α
  | _, 0 => ⟨Except.error "no attempt allowed", [], 0, 0⟩
  | attempt, rem + 1 =>
    match fetch attempt with
    | Except.ok v => ⟨Except.ok v, [], 0, 1⟩
    | Except.error e =>
      if rem = 0 then
        ⟨Except.error e, [(addr, e)], 0, 1⟩
      else
        let r := retryAux fetch addr (attempt + 1) rem
        ⟨r.result, (addr, e) :: r.failIncs, r.sleeps + 1, r.attempts + 1⟩

/-- A retry loop `for attempt := 1; attempt <= maxAttempts; attempt++`
from main.go, wrapping one fetch operation. -/
def retryFetch (fetch : Nat → Except String α) (addr : String) : RetryResult α :=
  retryAux fetch addr 1 maxAttempts

/-- The short label tuple `labels` from main.go. -/
def labels (i : DeviceInfo) : List String :=
  [i.deviceID, i.decodedNickname, i.model, i.mac, i.oemID]

/-- The long label tuple `allLabels` from main.go (short tuple plus the
descriptive fields, numbers and booleans formatted as strings). -/
def allLabels (i : DeviceInfo) : List String :=
  labels i ++
    [i.fwVersion, i.hwVersion, i.type, i.hwID, i.fwID, i.ip,
     toString i.timeDiff, i.decodedSSID, toString i.rssi, toString i.signalLevel,
     toString i.latitude, toString i.longitude, i.lang, i.avatar, i.region,
     i.specs, toString i.hasSetLocationInfo, toString i.deviceON,
     toString i.onTime, toString i.overHeated, i.powerProtectionStatus,
     i.location]

/-- One `gauge.WithLabelValues(...).Set(value)` call. -/
structure MetricWrite where
  series : String
  labelValues : List String
  value : Int
  deriving Repr, DecidableEq

/-- The nine usage-snapshot series names written from a `DeviceUsage`. -/
def usageSeriesNames : List String :=
  ["tapo_plug_time_usage_today", "tapo_plug_time_usage_past7",
   "tapo_plug_time_usage_past30", "tapo_plug_power_usage_today",
   "tapo_plug_power_usage_past7", "tapo_plug_power_usage_past30",
   "tapo_plug_saved_power_today", "tapo_plug_saved_usage_past7",
   "tapo_plug_saved_power_past30"]

/-- The gauge writes main.go performs unconditionally on the success path:
device info (value 1 on the long tuple), the 1/0-encoded on and overheated
states, and the nine usage-snapshot series. -/
def baseWrites (i : DeviceInfo) (u : DeviceUsage) : List MetricWrite :=
  [⟨"tapo_device_info", allLabels i, 1⟩,
   ⟨"tapo_plug_device_on", labels i, if i.deviceON then 1 else 0⟩,
   ⟨"tapo_plug_device_overheated", labels i, if i.overHeated then 1 else 0⟩,
   ⟨"tapo_plug_time_usage_today", labels i, u.timeUsage.today⟩,
   ⟨"tapo_plug_time_usage_past7", labels i, u.timeUsage.past7⟩,
   ⟨"tapo_plug_time_usage_past30", labels i, u.timeUsage.past30⟩,
   ⟨"tapo_plug_power_usage_today", labels i, u.powerUsage.today⟩,
   ⟨"tapo_plug_power_usage_past7", labels i, u.powerUsage.past7⟩,
   ⟨"tapo_plug_power_usage_past30", labels i, u.powerUsage.past30⟩,
   ⟨"tapo_plug_saved_power_today", labels i, u.savedPower.today⟩,
   ⟨"tapo_plug_saved_usage_past7", labels i, u.savedPower.past7⟩,
   ⟨"tapo_plug_saved_power_past30", labels i, u.savedPower.past30⟩]

/-- The gauge writes main.go performs when an energy snapshot was fetched
(`e != nil`). -/
def energyWrites (i : DeviceInfo) (e : EnergyUsage) : List MetricWrite :=
  [⟨"tapo_plug_today_runtime", labels i, e.todayRuntime⟩,
   ⟨"tapo_plug_month_runtime", labels i, e.monthRuntime⟩,
   ⟨"tapo_plug_today_energy", labels i, e.todayEnergy⟩,
   ⟨"tapo_plug_month_energy", labels i, e.monthEnergy⟩,
   ⟨"tapo_plug_electricity_charge_0", labels i, e.electricityCharge.1⟩,
   ⟨"tapo_plug_electricity_charge_1", labels i, e.electricityCharge.2.1⟩,
   ⟨"tapo_plug_electricity_charge_2", labels i, e.electricityCharge.2.2⟩,
   ⟨"tapo_plug_current_power", labels i, e.currentPower⟩]

/-- All gauge writes of a fully successful per-device update. -/
def successWrites (i : DeviceInfo) (u : DeviceUsage) :
    Option EnergyUsage → List MetricWrite
  | none => baseWrites i u
  | some e => baseWrites i u ++ energyWrites i e

/-- How the processing of one device in one poll cycle ends: `skipped`
(the `continue` after a login failure), `fatal` (a `log.Fatalf`, which
terminates the whole process), or `completed`. -/
inductive DeviceOutcome where
  | skipped
  | fatal (msg : String)
  | completed
  deriving Repr, DecidableEq

/-- Everything observable from processing one device in one poll cycle. -/
structure DeviceResult where
  outcome : DeviceOutcome
  failIncs : List (String × String)
  writes : List MetricWrite
  energyAttempted : Bool
  logs : List LogEntry
  deriving Repr

/-- The per-device body of the poll loop in main.go: fresh login (login
failure increments the failure counter, logs a warning and skips the
device), retried device-info fetch (`log.Fatalf` on exhaustion), retried
usage fetch (`log.Fatalf` on exhaustion), capability-gated retried energy
fetch (`log.Fatalf` on exhaustion), then all gauge writes. -/
def processPlug (addr : String) (b : PlugBehavior) (stopOnKlapError : Bool) :
    DeviceResult :=
  match plugLogin addr b.handshake stopOnKlapError with
  | (some err, lgs) =>
    { outcome := DeviceOutcome.skipped
      failIncs := [(addr, err.text)]
      writes := []
      energyAttempted := false
      logs := lgs ++
        [⟨LogLevel.warning, "failed to log in on plug " ++ addr ++ ": " ++ err.text⟩] }
  | (none, lgs) =>
    match (retryFetch b.getDeviceInfo addr).result with
    | Except.error e =>
      { outcome := DeviceOutcome.fatal
          ("GetDeviceInfo failed after 3 attempts. Last error: " ++ e)
        failIncs := (retryFetch b.getDeviceInfo addr).failIncs
        writes := []
        energyAttempted := false
        logs := lgs }
    | Except.ok i =>
      match (retryFetch b.getDeviceUsage addr).result with
      | Except.error e =>
        { outcome := DeviceOutcome.fatal
            ("GetDeviceUsage failed after 3 attempts. Last error: " ++ e)
          failIncs := (retryFetch b.getDeviceInfo addr).failIncs ++
            (retryFetch b.getDeviceUsage addr).failIncs
          writes := []
          energyAttempted := false
          logs := lgs }
      | Except.ok u =>
        if hasPowerInformation i.model then
          match (retryFetch b.getEnergyUsage addr).result with
          | Except.error e =>
            { outcome := DeviceOutcome.fatal
                ("GetEnergyUsage failed after 3 attempts. Last error: " ++ e)
              failIncs := (retryFetch b.getDeviceInfo addr).failIncs ++
                (retryFetch b.getDeviceUsage addr).failIncs ++
                (retryFetch b.getEnergyUsage addr).failIncs
              writes := []
              energyAttempted := true
              logs := lgs }
          | Except.ok en =>
            { outcome := DeviceOutcome.completed
              failIncs := (retryFetch b.getDeviceInfo addr).failIncs ++
                (retryFetch b.getDeviceUsage addr).failIncs ++
                (retryFetch b.getEnergyUsage addr).failIncs
              writes := successWrites i u (some en)
              energyAttempted := true
              logs := lgs }
        else
          { outcome := DeviceOutcome.completed
            failIncs := (retryFetch b.getDeviceInfo addr).failIncs ++
              (retryFetch b.getDeviceUsage addr).failIncs
            writes := successWrites i u none
            energyAttempted := false
            logs := lgs ++
              [⟨LogLevel.info,
                "Ignoring device without power information model=" ++ i.model⟩] }

/-- The observable state of one poll cycle: accumulated gauge writes and
failure-counter increments, and whether a `log.Fatalf` aborted the cycle
(and the process) before its end. -/
structure CycleState where
  writes : List MetricWrite
  failIncs : List (String × String)
  aborted : Option String
  deriving Repr

/-- One pass of the poll loop over the device list, strictly sequential: a
skipped or completed device lets the loop move to the next device; a fatal
outcome terminates the process, leaving the remaining devices unprocessed. -/
def runCycle (stopOnKlapError : Bool) :
    List (String × PlugBehavior) → CycleState
  | [] => { writes := [], failIncs := [], aborted := none }
  | (addr, b) :: rest =>
    match (processPlug addr b stopOnKlapError).outcome with
    | DeviceOutcome.fatal msg =>
      { writes := (processPlug addr b stopOnKlapError).writes
        failIncs := (processPlug addr b stopOnKlapError).failIncs
        aborted := some msg }
    | _ =>
      { writes := (processPlug addr b stopOnKlapError).writes ++
          (runCycle stopOnKlapError rest).writes
        failIncs := (processPlug addr b stopOnKlapError).failIncs ++
          (runCycle stopOnKlapError rest).failIncs
        aborted := (runCycle stopOnKlapError rest).aborted }

/-- `validateDevices` from main.go: reject an empty list, then drop
duplicate addresses (the Go code inserts every address into a set and
keeps its keys; the model keeps first occurrences, which has the same
cardinality). -/
def validateDevices (devices : List String) : Except String (List String) :=
  if devices.length = 0 then
    Except.error "device list is empty"
  else
    let uniqueDevices :=
      devices.foldl (fun acc d => if d ∈ acc then acc else acc ++ [d]) []
    if uniqueDevices.length = 0 then
      Except.error "got zero valid devices"
    else
      Except.ok uniqueDevices

/-- How startup device validation ends in `main`: `log.Fatalf` (process
exit with nonzero status) on a validation error, else the process keeps
running on the validated list. -/
inductive StartupResult where
  | fatalExit (msg : String)
  | running (devices : List String)
  deriving Repr, DecidableEq

/-- The `devices, err = validateDevices(devices)` step of `main`,
including its `log.Fatalf` on error. -/
def startupDevices (devices : List String) : StartupResult :=
  match validateDevices devices with
  | Except.error e => StartupResult.fatalExit ("Device validation failed: " ++ e)
  | Except.ok u => StartupResult.running u

/-! Concrete sample data used by witnesses and counterexamples. -/

/-- A concrete device-info record of a non-energy-capable plug (model P100). -/
def sampleInfo : DeviceInfo :=
  { deviceID := "8022B1F61"
    decodedNickname := "desk plug"
    model := "P100"
    mac := "AA-BB-CC-DD-EE-FF"
    oemID := "9AEF01"
    fwVersion := "1.4.10"
    hwVersion := "1.0"
    type := "SMART.TAPOPLUG"
    hwID := "HW01"
    fwID := "FW01"
    ip := "10.0.0.2"
    timeDiff := 60
    decodedSSID := "homewifi"
    rssi := -44
    signalLevel := 3
    latitude := 0
    longitude := 0
    lang := "en_US"
    avatar := "plug"
    region := "Europe/Rome"
    specs := "EU"
    hasSetLocationInfo := false
    deviceON := true
    onTime := 1200
    overHeated := false
    powerProtectionStatus := "normal"
    location := "desk" }

/-- A concrete device-info record of an energy-capable plug (model P110). -/
def sampleInfoP110 : DeviceInfo :=
  { sampleInfo with deviceID := "8022B1F62", model := "P110", ip := "10.0.0.5" }

/-- A concrete usage snapshot. -/
def sampleUsage : DeviceUsage :=
  { timeUsage := ⟨95, 1337, 5791⟩
    powerUsage := ⟨12, 140, 607⟩
    savedPower := ⟨3, 41, 170⟩ }

/-- A concrete energy snapshot. -/
def sampleEnergy : EnergyUsage :=
  { todayRuntime := 95
    monthRuntime := 2903
    todayEnergy := 104
    monthEnergy := 3310
    electricityCharge := (0, 11, 42)
    currentPower := 2350 }

/-- A plug that logs in and answers every fetch on the first attempt. -/
def goodPlug : PlugBehavior :=
  { handshake := none
    getDeviceInfo := fun _ => Except.ok sampleInfo
    getDeviceUsage := fun _ => Except.ok sampleUsage
    getEnergyUsage := fun _ => Except.error "unreachable for a P100" }

/-- An energy-capable plug that logs in and answers every fetch on the
first attempt. -/
def goodPlugP110 : PlugBehavior :=
  { handshake := none
    getDeviceInfo := fun _ => Except.ok sampleInfoP110
    getDeviceUsage := fun _ => Except.ok sampleUsage
    getEnergyUsage := fun _ => Except.ok sampleEnergy }

/-- A plug that logs in but fails every device-info attempt. -/
def badInfoPlug : PlugBehavior :=
  { handshake := none
    getDeviceInfo := fun _ => Except.error "connection refused"
    getDeviceUsage := fun _ => Except.ok sampleUsage
    getEnergyUsage := fun _ => Except.error "connection refused" }

/-- An energy-capable plug whose energy fetch fails every attempt. -/
def badEnergyPlug : PlugBehavior :=
  { handshake := none
    getDeviceInfo := fun _ => Except.ok sampleInfoP110
    getDeviceUsage := fun _ => Except.ok sampleUsage
    getEnergyUsage := fun _ => Except.error "connection reset" }

/-- A plug whose handshake fails with TapoError code 1003 (KLAP-only
firmware) and whose fetches all fail (no authenticated session exists). -/
def klapPlug : PlugBehavior :=
  { handshake := some ⟨"response error, code -1003", some 1003⟩
    getDeviceInfo := fun _ => Except.error "connection refused"
    getDeviceUsage := fun _ => Except.error "connection refused"
    getEnergyUsage := fun _ => Except.error "connection refused" }

/-- A plug whose usage fetch fails on attempts 1 and 2 and succeeds on
attempt 3, everything else succeeding immediately. -/
def flakyUsagePlug : PlugBehavior :=
  { handshake := none
    getDeviceInfo := fun _ => Except.ok sampleInfo
    getDeviceUsage := fun attempt =>
      if attempt ≤ 2 then Except.error "timeout" else Except.ok sampleUsage
    getEnergyUsage := fun _ => Except.error "unreachable for a P100" }

/-! Helper lemmas shared by the claim theorems. -/

/-- Unrolling of the three-attempt retry loop over the attempt outcomes. -/
theorem retryFetch_eq {α : Type} (fetch : Nat → Except String α) (addr : String) :
    retryFetch fetch addr =
      match fetch 1 with
      | Except.ok v => ⟨Except.ok v, [], 0, 1⟩
      | Except.error e1 =>
        match fetch 2 with
        | Except.ok v => ⟨Except.ok v, [(addr, e1)], 1, 2⟩
        | Except.error e2 =>
          match fetch 3 with
          | Except.ok v => ⟨Except.ok v, [(addr, e1), (addr, e2)], 2, 3⟩
          | Except.error e3 =>
            ⟨Except.error e3, [(addr, e1), (addr, e2), (addr, e3)], 2, 3⟩ := by
  cases h1 : fetch 1 <;> cases h2 : fetch 2 <;> cases h3 : fetch 3 <;>
    simp [retryFetch, retryAux, maxAttempts, h1, h2, h3]

/-- The unconditional success-path writes are writes of every success path. -/
theorem baseWrites_mem_successWrites {i : DeviceInfo} {u : DeviceUsage}
    (oe : Option EnergyUsage) {w : MetricWrite} (hw : w ∈ baseWrites i u) :
    w ∈ successWrites i u oe := by
  cases oe with
  | none => exact hw
  | some e => exact List.mem_append_left _ hw

/-- Every usage-snapshot series gets a write, on the short label tuple, in
every success path. -/
theorem usage_mem_successWrites (i : DeviceInfo) (u : DeviceUsage)
    (oe : Option EnergyUsage) :
    ∀ n ∈ usageSeriesNames, ∃ w ∈ successWrites i u oe,
      w.series = n ∧ w.labelValues = labels i := by
  intro n hn
  fin_cases hn
  · exact ⟨⟨"tapo_plug_time_usage_today", labels i, u.timeUsage.today⟩,
      baseWrites_mem_successWrites oe (by simp [baseWrites]), rfl, rfl⟩
  · exact ⟨⟨"tapo_plug_time_usage_past7", labels i, u.timeUsage.past7⟩,
      baseWrites_mem_successWrites oe (by simp [baseWrites]), rfl, rfl⟩
  · exact ⟨⟨"tapo_plug_time_usage_past30", labels i, u.timeUsage.past30⟩,
      baseWrites_mem_successWrites oe (by simp [baseWrites]), rfl, rfl⟩
  · exact ⟨⟨"tapo_plug_power_usage_today", labels i, u.powerUsage.today⟩,
      baseWrites_mem_successWrites oe (by simp [baseWrites]), rfl, rfl⟩
  · exact ⟨⟨"tapo_plug_power_usage_past7", labels i, u.powerUsage.past7⟩,
      baseWrites_mem_successWrites oe (by simp [baseWrites]), rfl, rfl⟩
  · exact ⟨⟨"tapo_plug_power_usage_past30", labels i, u.powerUsage.past30⟩,
      baseWrites_mem_successWrites oe (by simp [baseWrites]), rfl, rfl⟩
  · exact ⟨⟨"tapo_plug_saved_power_today", labels i, u.savedPower.today⟩,
      baseWrites_mem_successWrites oe (by simp [baseWrites]), rfl, rfl⟩
  · exact ⟨⟨"tapo_plug_saved_usage_past7", labels i, u.savedPower.past7⟩,
      baseWrites_mem_successWrites oe (by simp [baseWrites]), rfl, rfl⟩
  · exact ⟨⟨"tapo_plug_saved_power_past30", labels i, u.savedPower.past30⟩,
      baseWrites_mem_successWrites oe (by simp [baseWrites]), rfl, rfl⟩

/-- A fatal device outcome ends the cycle there: its writes and counter
increments are final and the cycle records the abort. -/
theorem runCycle_cons_fatal {a : String} {b : PlugBehavior} {s : Bool} {m : String}
    (rest : List (String × PlugBehavior))
    (h : (processPlug a b s).outcome = DeviceOutcome.fatal m) :
    runCycle s ((a, b) :: rest) =
      ⟨(processPlug a b s).writes, (processPlug a b s).failIncs, some m⟩ := by
  unfold runCycle
  rw [h]

/-! Claim theorems. -/

/-- C3: for every device and poll cycle, either the complete usage
snapshot is written to all of that device's metric series (every
usage-snapshot series receives a write on the device's short label tuple),
or none of its series are written that cycle — every failure path of
per-device processing produces an empty write list. -/
theorem C3_all_or_nothing_writes (a : String) (b : PlugBehavior) (s : Bool) :
    (processPlug a b s).writes = [] ∨
      ∃ i u oe, (processPlug a b s).writes = successWrites i u oe ∧
        ∀ n ∈ usageSeriesNames, ∃ w ∈ successWrites i u oe,
          w.series = n ∧ w.labelValues = labels i := by
  unfold processPlug
  split
  · exact Or.inl rfl
  · split
    · exact Or.inl rfl
    next i hi =>
      split
      · exact Or.inl rfl
      next u hu =>
        split
        · split
          · exact Or.inl rfl
          next en hen =>
            exact Or.inr ⟨i, u, some en, rfl, usage_mem_successWrites i u (some en)⟩
        · exact Or.inr ⟨i, u, none, rfl, usage_mem_successWrites i u none⟩

/-- C9: in every successful per-device update, the device-info series is
set to the constant 1 on the long label tuple, and the on/off and
overheated device states are written as exactly 1 or 0 on their
short-tuple series, matching the fetched device state. -/
theorem C9_info_record_and_bool_encoding (a : String) (b : PlugBehavior)
    (s : Bool) (i : DeviceInfo)
    (hi : (retryFetch b.getDeviceInfo a).result = Except.ok i)
    (hc : (processPlug a b s).outcome = DeviceOutcome.completed) :
    (⟨"tapo_device_info", allLabels i, 1⟩ : MetricWrite) ∈ (processPlug a b s).writes ∧
    (⟨"tapo_plug_device_on", labels i, if i.deviceON then 1 else 0⟩ : MetricWrite) ∈
      (processPlug a b s).writes ∧
    (⟨"tapo_plug_device_overheated", labels i,
        if i.overHeated then 1 else 0⟩ : MetricWrite) ∈
      (processPlug a b s).writes := by
  revert hc
  unfold processPlug
  split
  · intro hc; simp at hc
  · split
    · intro hc; simp at hc
    next i' hi' =>
      rw [hi] at hi'
      injection hi' with hii
      subst hii
      split
      · intro hc; simp at hc
      next u hu =>
        split
        · split
          · intro hc; simp at hc
          next en hen =>
            intro _
            refine ⟨?_, ?_, ?_⟩ <;>
              exact baseWrites_mem_successWrites (some en) (by simp [baseWrites])
        · intro _
          refine ⟨?_, ?_, ?_⟩ <;>
            exact baseWrites_mem_successWrites none (by simp [baseWrites])

/-- C9 witness: a concrete successful update of a non-energy-capable plug
whose reported state is on and not overheated. -/
theorem C9_witness :
    (retryFetch goodPlug.getDeviceInfo "10.0.0.2").result = Except.ok sampleInfo ∧
    (processPlug "10.0.0.2" goodPlug false).outcome = DeviceOutcome.completed ∧
    ((⟨"tapo_device_info", allLabels sampleInfo, 1⟩ : MetricWrite) ∈
        (processPlug "10.0.0.2" goodPlug false).writes ∧
      (⟨"tapo_plug_device_on", labels sampleInfo,
          if sampleInfo.deviceON then 1 else 0⟩ : MetricWrite) ∈
        (processPlug "10.0.0.2" goodPlug false).writes ∧
      (⟨"tapo_plug_device_overheated", labels sampleInfo,
          if sampleInfo.overHeated then 1 else 0⟩ : MetricWrite) ∈
        (processPlug "10.0.0.2" goodPlug false).writes) :=
  ⟨rfl, rfl, C9_info_record_and_bool_encoding "10.0.0.2" goodPlug false sampleInfo rfl rfl⟩

/-- C4: for every device whose cycle reaches capability classification
(login reported success, device-info and usage fetched), an energy-usage
fetch is attempted iff the device's reported model matches,
case-insensitively and exactly, an entry of the fixed allow-list
(P110, P115, P125M); an unknown model is classified non-capable, gets no
energy fetch, and raises no error (the device still completes). -/
theorem C4_energy_gated_by_allowlist (a : String) (b : PlugBehavior) (s : Bool)
    (i : DeviceInfo) (u : DeviceUsage)
    (hl : (plugLogin a b.handshake s).1 = none)
    (hi : (retryFetch b.getDeviceInfo a).result = Except.ok i)
    (hu : (retryFetch b.getDeviceUsage a).result = Except.ok u) :
    ((processPlug a b s).energyAttempted = true ↔ hasPowerInformation i.model = true) ∧
    (hasPowerInformation i.model = false →
      ((processPlug a b s).energyAttempted = false ∧
       (processPlug a b s).outcome = DeviceOutcome.completed)) ∧
    (∀ m : String, hasPowerInformation m = true ↔
      ∃ e ∈ modelsWithPowerInformation, strToLower m = strToLower e) := by
  have key : ((processPlug a b s).energyAttempted = hasPowerInformation i.model) ∧
      (hasPowerInformation i.model = false →
        (processPlug a b s).outcome = DeviceOutcome.completed) := by
    unfold processPlug
    split
    next err lgs heq => rw [heq] at hl; simp at hl
    next lgs heq =>
      split
      next e he => rw [hi] at he; simp at he
      next i' hi' =>
        rw [hi] at hi'
        injection hi' with hii
        subst hii
        split
        next e he => rw [hu] at he; simp at he
        next u' hu' =>
          split
          next hc =>
            split
            · exact ⟨by simp [hc], fun hf => by simp [hc] at hf⟩
            · exact ⟨by simp [hc], fun hf => by simp [hc] at hf⟩
          next hc =>
            refine ⟨?_, fun _ => rfl⟩
            simp [Bool.not_eq_true] at hc
            simp [hc]
  refine ⟨?_, ?_, ?_⟩
  · rw [key.1]
  · intro hf
    exact ⟨by rw [key.1, hf], key.2 hf⟩
  · intro m
    simp [hasPowerInformation, List.any_eq_true, beq_iff_eq]

/-- C4 witness: a concrete successful cycle of a P110 plug, where the
energy fetch is attempted. -/
theorem C4_witness :
    ((processPlug "10.0.0.5" goodPlugP110 false).energyAttempted = true ↔
      hasPowerInformation sampleInfoP110.model = true) ∧
    (hasPowerInformation sampleInfoP110.model = false →
      ((processPlug "10.0.0.5" goodPlugP110 false).energyAttempted = false ∧
       (processPlug "10.0.0.5" goodPlugP110 false).outcome = DeviceOutcome.completed)) ∧
    (∀ m : String, hasPowerInformation m = true ↔
      ∃ e ∈ modelsWithPowerInformation, strToLower m = strToLower e) :=
  C4_energy_gated_by_allowlist "10.0.0.5" goodPlugP110 false sampleInfoP110
    sampleUsage rfl rfl rfl

/-- C7: for an energy-capable device, exhausting all retry attempts of the
energy fetch is fatal process-wide: the device's outcome is a
`log.Fatalf`, nothing is written for it, and the poll cycle is aborted
rather than proceeding. -/
theorem C7_energy_exhaustion_fatal (a : String) (b : PlugBehavior) (s : Bool)
    (rest : List (String × PlugBehavior)) (i : DeviceInfo) (u : DeviceUsage)
    (hl : (plugLogin a b.handshake s).1 = none)
    (hi : (retryFetch b.getDeviceInfo a).result = Except.ok i)
    (hu : (retryFetch b.getDeviceUsage a).result = Except.ok u)
    (hcap : hasPowerInformation i.model = true)
    (he : ∃ e, (retryFetch b.getEnergyUsage a).result = Except.error e) :
    (∃ m, (processPlug a b s).outcome = DeviceOutcome.fatal m) ∧
    (processPlug a b s).writes = [] ∧
    (runCycle s ((a, b) :: rest)).aborted.isSome = true := by
  obtain ⟨e, he⟩ := he
  have hfatal : (processPlug a b s).outcome =
      DeviceOutcome.fatal ("GetEnergyUsage failed after 3 attempts. Last error: " ++ e) ∧
      (processPlug a b s).writes = [] := by
    unfold processPlug
    split
    next err lgs heq => rw [heq] at hl; simp at hl
    next lgs heq =>
      split
      next e' he' => rw [hi] at he'; simp at he'
      next i' hi' =>
        rw [hi] at hi'
        injection hi' with hii
        subst hii
        split
        next e' he' => rw [hu] at he'; simp at he'
        next u' hu' =>
          split
          next hc =>
            split
            next e' he' =>
              rw [he] at he'
              injection he' with hee
              subst hee
              exact ⟨rfl, rfl⟩
            next en hen => rw [he] at hen; simp at hen
          next hc => exact absurd hcap hc
  refine ⟨⟨_, hfatal.1⟩, hfatal.2, ?_⟩
  rw [runCycle_cons_fatal rest hfatal.1]
  rfl

/-- C7 witness: a concrete P110 plug whose energy fetch fails every
attempt aborts the whole cycle. -/
theorem C7_witness :
    (∃ m, (processPlug "10.0.0.5" badEnergyPlug false).outcome =
      DeviceOutcome.fatal m) ∧
    (processPlug "10.0.0.5" badEnergyPlug false).writes = [] ∧
    (runCycle false [("10.0.0.5", badEnergyPlug)]).aborted.isSome = true :=
  C7_energy_exhaustion_fatal "10.0.0.5" badEnergyPlug false [] sampleInfoP110
    sampleUsage rfl rfl rfl rfl ⟨"connection reset", rfl⟩

/-- C5: each retry loop makes at most 3 attempts, sleeps the retry
interval after each failed non-final attempt, and short-circuits on the
first success: if attempt `k` (within budget) succeeds after `k - 1`
failures, the fetched value is returned after exactly `k` attempts and
`k - 1` sleeps. -/
theorem C5_retry_contract {α : Type} (fetch : Nat → Except String α)
    (addr : String) (k : Nat) (v : α)
    (hk1 : 1 ≤ k) (hk3 : k ≤ maxAttempts)
    (hfail : ∀ j, 1 ≤ j → j < k → ∃ e, fetch j = Except.error e)
    (hok : fetch k = Except.ok v) :
    (retryFetch fetch addr).result = Except.ok v ∧
    (retryFetch fetch addr).attempts = k ∧
    (retryFetch fetch addr).sleeps = k - 1 ∧
    (∀ g : Nat → Except String α, (retryFetch g addr).attempts ≤ maxAttempts) := by
  have hbound : ∀ g : Nat → Except String α,
      (retryFetch g addr).attempts ≤ maxAttempts := by
    intro g
    rw [retryFetch_eq]
    cases g 1 <;> cases g 2 <;> cases g 3 <;> simp [maxAttempts]
  have hk3' : k ≤ 3 := hk3
  interval_cases k
  · exact ⟨by simp [retryFetch_eq, hok], by simp [retryFetch_eq, hok],
      by simp [retryFetch_eq, hok], hbound⟩
  · obtain ⟨e1, h1⟩ := hfail 1 (by norm_num) (by norm_num)
    exact ⟨by simp [retryFetch_eq, h1, hok], by simp [retryFetch_eq, h1, hok],
      by simp [retryFetch_eq, h1, hok], hbound⟩
  · obtain ⟨e1, h1⟩ := hfail 1 (by norm_num) (by norm_num)
    obtain ⟨e2, h2⟩ := hfail 2 (by norm_num) (by norm_num)
    exact ⟨by simp [retryFetch_eq, h1, h2, hok], by simp [retryFetch_eq, h1, h2, hok],
      by simp [retryFetch_eq, h1, h2, hok], hbound⟩

/-- C5 witness: a fetch failing on attempts 1 and 2 and succeeding on
attempt 3 returns the value after 3 attempts and 2 sleeps. -/
theorem C5_witness :
    (retryFetch flakyUsagePlug.getDeviceUsage "10.0.0.4").result =
      Except.ok sampleUsage ∧
    (retryFetch flakyUsagePlug.getDeviceUsage "10.0.0.4").attempts = 3 ∧
    (retryFetch flakyUsagePlug.getDeviceUsage "10.0.0.4").sleeps = 3 - 1 ∧
    (∀ g : Nat → Except String DeviceUsage,
      (retryFetch g "10.0.0.4").attempts ≤ maxAttempts) :=
  C5_retry_contract flakyUsagePlug.getDeviceUsage "10.0.0.4" 3 sampleUsage
    (by norm_num) (by decide)
    (fun j hj1 hjk => ⟨"timeout", by interval_cases j <;> rfl⟩) rfl

/-- C6: every failed attempt within a retry budget increments the failure
counter with the device address and the error text, whether or not the
fetch ultimately succeeds: two failures before a success on attempt 3 give
exactly the two increments and the fetched value; three failures give
exactly three increments; and at the device level a usage fetch failing
twice then succeeding still ends in a complete, normal metric write. -/
theorem C6_failure_counter_increments (α : Type) :
    (∀ (fetch : Nat → Except String α) (addr e1 e2 : String) (v : α),
      fetch 1 = Except.error e1 → fetch 2 = Except.error e2 →
      fetch 3 = Except.ok v →
      (retryFetch fetch addr).failIncs = [(addr, e1), (addr, e2)] ∧
      (retryFetch fetch addr).result = Except.ok v) ∧
    (∀ (fetch : Nat → Except String α) (addr e1 e2 e3 : String),
      fetch 1 = Except.error e1 → fetch 2 = Except.error e2 →
      fetch 3 = Except.error e3 →
      (retryFetch fetch addr).failIncs = [(addr, e1), (addr, e2), (addr, e3)] ∧
      (retryFetch fetch addr).result = Except.error e3) ∧
    (∀ (a : String) (b : PlugBehavior) (s : Bool) (i : DeviceInfo)
        (e1 e2 : String) (u : DeviceUsage),
      b.handshake = none →
      (∀ j, b.getDeviceInfo j = Except.ok i) →
      b.getDeviceUsage 1 = Except.error e1 →
      b.getDeviceUsage 2 = Except.error e2 →
      b.getDeviceUsage 3 = Except.ok u →
      hasPowerInformation i.model = false →
      (processPlug a b s).failIncs = [(a, e1), (a, e2)] ∧
      (processPlug a b s).outcome = DeviceOutcome.completed ∧
      (processPlug a b s).writes = successWrites i u none) := by
  refine ⟨?_, ?_, ?_⟩
  · intro fetch addr e1 e2 v h1 h2 h3
    constructor <;> simp [retryFetch_eq, h1, h2, h3]
  · intro fetch addr e1 e2 e3 h1 h2 h3
    constructor <;> simp [retryFetch_eq, h1, h2, h3]
  · intro a b s i e1 e2 u hb hij hu1 hu2 hu3 hcap
    have hinfo : retryFetch b.getDeviceInfo a = ⟨Except.ok i, [], 0, 1⟩ := by
      rw [retryFetch_eq, hij 1]
    have husage : retryFetch b.getDeviceUsage a =
        ⟨Except.ok u, [(a, e1), (a, e2)], 2, 3⟩ := by
      rw [retryFetch_eq, hu1, hu2, hu3]
    refine ⟨?_, ?_, ?_⟩ <;>
      simp [processPlug, hb, plugLogin, hinfo, husage, hcap]

/-- C6 witness: the concrete plug whose usage fetch fails twice then
succeeds produces exactly two failure-counter increments and a full
successful write. -/
theorem C6_witness :
    (processPlug "10.0.0.4" flakyUsagePlug false).failIncs =
      [("10.0.0.4", "timeout"), ("10.0.0.4", "timeout")] ∧
    (processPlug "10.0.0.4" flakyUsagePlug false).outcome =
      DeviceOutcome.completed ∧
    (processPlug "10.0.0.4" flakyUsagePlug false).writes =
      successWrites sampleInfo sampleUsage none :=
  (C6_failure_counter_increments Unit).2.2 "10.0.0.4" flakyUsagePlug false
    sampleInfo "timeout" "timeout" sampleUsage rfl (fun _ => rfl) rfl rfl rfl rfl

/-- Exhausting the info or usage retry budget after a successful login
makes the device's outcome fatal, with nothing written for it. -/
theorem processPlug_exhaust_fatal {a : String} {b : PlugBehavior} {s : Bool}
    (hl : (plugLogin a b.handshake s).1 = none)
    (hf : (∃ e, (retryFetch b.getDeviceInfo a).result = Except.error e) ∨
          ((∃ i, (retryFetch b.getDeviceInfo a).result = Except.ok i) ∧
           (∃ e, (retryFetch b.getDeviceUsage a).result = Except.error e))) :
    (processPlug a b s).writes = [] ∧
    ∃ m, (processPlug a b s).outcome = DeviceOutcome.fatal m := by
  unfold processPlug
  split
  next err lgs heq => rw [heq] at hl; simp at hl
  next lgs heq =>
    rcases hf with ⟨e, he⟩ | ⟨⟨i, hi⟩, ⟨e, he⟩⟩
    · split
      next e' he' => exact ⟨rfl, _, rfl⟩
      next i' hi' => rw [he] at hi'; simp at hi'
    · split
      next e' he' => exact ⟨rfl, _, rfl⟩
      next i' hi' =>
        split
        next e' he' => exact ⟨rfl, _, rfl⟩
        next u' hu' => rw [he] at hu'; simp at hu'

/-- A device whose login step reported success is never skipped: the poll
loop proceeds to its fetch phase. -/
theorem processPlug_not_skipped {a : String} {b : PlugBehavior} {s : Bool}
    (hl : (plugLogin a b.handshake s).1 = none) :
    (processPlug a b s).outcome ≠ DeviceOutcome.skipped := by
  unfold processPlug
  split
  next err lgs heq => rw [heq] at hl; simp at hl
  next lgs heq =>
    split
    · simp
    · split
      · simp
      · split
        · split <;> simp
        · simp

/-- Membership in the duplicate-dropping fold of `validateDevices`. -/
theorem dedupFold_mem (l : List String) : ∀ (acc : List String) (x : String),
    (x ∈ l.foldl (fun acc d => if d ∈ acc then acc else acc ++ [d]) acc) ↔
      x ∈ acc ∨ x ∈ l := by
  induction l with
  | nil => intro acc x; simp
  | cons d l ih =>
    intro acc x
    rw [List.foldl_cons, ih]
    by_cases hd : d ∈ acc
    · simp only [if_pos hd, List.mem_cons]
      constructor
      · rintro (hx | hx)
        · exact Or.inl hx
        · exact Or.inr (Or.inr hx)
      · rintro (hx | rfl | hx)
        · exact Or.inl hx
        · exact Or.inl hd
        · exact Or.inr hx
    · simp only [if_neg hd, List.mem_append, List.mem_singleton, List.mem_cons]
      tauto

/-- The duplicate-dropping fold of `validateDevices` never introduces a
duplicate. -/
theorem dedupFold_nodup (l : List String) : ∀ acc : List String, acc.Nodup →
    (l.foldl (fun acc d => if d ∈ acc then acc else acc ++ [d]) acc).Nodup := by
  induction l with
  | nil => intro acc h; simpa using h
  | cons d l ih =>
    intro acc h
    rw [List.foldl_cons]
    apply ih
    by_cases hd : d ∈ acc
    · simpa [hd] using h
    · rw [if_neg hd]
      simp [List.nodup_append, h, hd]

/-- C1 counterexample: a device failing all 3 device-info attempts does
not merely lose its own cycle — `log.Fatalf` aborts the process, so the
next device in the list (which on its own completes with writes) is never
processed and the cycle ends with no writes at all. -/
theorem C1_counterexample :
    (processPlug "10.0.0.2" goodPlug false).outcome = DeviceOutcome.completed ∧
    (processPlug "10.0.0.2" goodPlug false).writes ≠ [] ∧
    (processPlug "10.0.0.1" badInfoPlug false).outcome =
      DeviceOutcome.fatal
        "GetDeviceInfo failed after 3 attempts. Last error: connection refused" ∧
    (runCycle false [("10.0.0.1", badInfoPlug), ("10.0.0.2", goodPlug)]).aborted =
      some "GetDeviceInfo failed after 3 attempts. Last error: connection refused" ∧
    (runCycle false [("10.0.0.1", badInfoPlug), ("10.0.0.2", goodPlug)]).writes = [] :=
  ⟨rfl, List.cons_ne_nil _ _, rfl, rfl, rfl⟩

/-- C1 (amended): for every device whose get-device-info or
get-device-usage fetch fails on all retry attempts in a poll cycle, no
metric write occurs for it, but the failure is fatal to the whole process
(`log.Fatalf`): the cycle is aborted and the scheduler does not proceed to
the next device. -/
theorem C1_amended_exhaustion_is_fatal (a : String) (b : PlugBehavior) (s : Bool)
    (rest : List (String × PlugBehavior))
    (hl : (plugLogin a b.handshake s).1 = none)
    (hf : (∃ e, (retryFetch b.getDeviceInfo a).result = Except.error e) ∨
          ((∃ i, (retryFetch b.getDeviceInfo a).result = Except.ok i) ∧
           (∃ e, (retryFetch b.getDeviceUsage a).result = Except.error e))) :
    (processPlug a b s).writes = [] ∧
    (∃ m, (processPlug a b s).outcome = DeviceOutcome.fatal m) ∧
    (runCycle s ((a, b) :: rest)).aborted.isSome = true ∧
    (runCycle s ((a, b) :: rest)).writes = [] := by
  obtain ⟨hw, m, hm⟩ := processPlug_exhaust_fatal hl hf
  refine ⟨hw, ⟨m, hm⟩, ?_, ?_⟩
  · rw [runCycle_cons_fatal rest hm]; rfl
  · rw [runCycle_cons_fatal rest hm]; exact hw

/-- C1 witness: the concrete plug failing every device-info attempt,
followed by a healthy plug, aborts the cycle with no writes. -/
theorem C1_witness :
    (processPlug "10.0.0.1" badInfoPlug false).writes = [] ∧
    (∃ m, (processPlug "10.0.0.1" badInfoPlug false).outcome =
      DeviceOutcome.fatal m) ∧
    (runCycle false [("10.0.0.1", badInfoPlug), ("10.0.0.2", goodPlug)]).aborted.isSome
      = true ∧
    (runCycle false [("10.0.0.1", badInfoPlug), ("10.0.0.2", goodPlug)]).writes = [] :=
  C1_amended_exhaustion_is_fatal "10.0.0.1" badInfoPlug false
    [("10.0.0.2", goodPlug)] rfl (Or.inl ⟨"connection refused", rfl⟩)

/-- C2 counterexample: a plug whose login fails with TapoError code 1003
under the default non-strict configuration is not excluded from the cycle:
`plugLogin` reports success, the poll loop proceeds to fetch from the
unauthenticated plug, and when those fetches fail the process is aborted —
contradicting both the claimed exclusion and the claimed impossibility of
a process abort. -/
theorem C2_counterexample :
    (plugLogin "10.0.0.3" klapPlug.handshake false).1 = none ∧
    (processPlug "10.0.0.3" klapPlug false).outcome ≠ DeviceOutcome.skipped ∧
    (processPlug "10.0.0.3" klapPlug false).outcome =
      DeviceOutcome.fatal
        "GetDeviceInfo failed after 3 attempts. Last error: connection refused" ∧
    (runCycle false [("10.0.0.3", klapPlug)]).aborted.isSome = true :=
  ⟨rfl, by decide, rfl, rfl⟩

/-- C2 (amended): under non-strict (default) configuration, a login
failure carrying TapoError code 1003 is masked by `plugLogin`: it reports
success after logging one error-level and one warning-level line, so the
device is not skipped — the poll loop proceeds to its fetches; if those
fetches then fail through all retries, the process terminates. -/
theorem C2_amended_klap_masked (a : String) (b : PlugBehavior) (t : String)
    (hh : b.handshake = some ⟨t, some 1003⟩) :
    (plugLogin a b.handshake false).1 = none ∧
    ((plugLogin a b.handshake false).2.map LogEntry.level) =
      [LogLevel.error, LogLevel.warning] ∧
    (processPlug a b false).outcome ≠ DeviceOutcome.skipped ∧
    ((∀ j, ∃ e, b.getDeviceInfo j = Except.error e) →
      ∃ m, (processPlug a b false).outcome = DeviceOutcome.fatal m) := by
  have hl : (plugLogin a b.handshake false).1 = none := by
    rw [hh]; simp [plugLogin]
  refine ⟨hl, ?_, processPlug_not_skipped hl, ?_⟩
  · rw [hh]; simp [plugLogin]
  · intro hfail
    obtain ⟨e1, h1⟩ := hfail 1
    obtain ⟨e2, h2⟩ := hfail 2
    obtain ⟨e3, h3⟩ := hfail 3
    have herr : (retryFetch b.getDeviceInfo a).result = Except.error e3 := by
      rw [retryFetch_eq]; simp [h1, h2, h3]
    exact (processPlug_exhaust_fatal hl (Or.inl ⟨e3, herr⟩)).2

/-- C2 witness: the concrete KLAP-failing plug under default
configuration. -/
theorem C2_witness :
    (plugLogin "10.0.0.3" klapPlug.handshake false).1 = none ∧
    ((plugLogin "10.0.0.3" klapPlug.handshake false).2.map LogEntry.level) =
      [LogLevel.error, LogLevel.warning] ∧
    (processPlug "10.0.0.3" klapPlug false).outcome ≠ DeviceOutcome.skipped ∧
    (∃ m, (processPlug "10.0.0.3" klapPlug false).outcome =
      DeviceOutcome.fatal m) :=
  ⟨(C2_amended_klap_masked "10.0.0.3" klapPlug "response error, code -1003" rfl).1,
   (C2_amended_klap_masked "10.0.0.3" klapPlug "response error, code -1003" rfl).2.1,
   (C2_amended_klap_masked "10.0.0.3" klapPlug "response error, code -1003" rfl).2.2.1,
   (C2_amended_klap_masked "10.0.0.3" klapPlug "response error, code -1003" rfl).2.2.2
     (fun _ => ⟨"connection refused", rfl⟩)⟩

/-- C8: device-list validation rejects an empty input list with an error
(on which `main` exits via `log.Fatalf`), and otherwise returns a
duplicate-free list with the same address set as the input — its length is
exactly the distinct-address cardinality. -/
theorem C8_dedup_and_empty_startup (devices : List String) :
    (devices = [] →
      validateDevices devices = Except.error "device list is empty" ∧
      startupDevices devices =
        StartupResult.fatalExit "Device validation failed: device list is empty") ∧
    (devices ≠ [] →
      ∃ u, validateDevices devices = Except.ok u ∧
        u.Nodup ∧ u.toFinset = devices.toFinset ∧
        u.length = devices.toFinset.card ∧
        startupDevices devices = StartupResult.running u) := by
  constructor
  · rintro rfl
    exact ⟨rfl, rfl⟩
  · intro hne
    refine ⟨devices.foldl (fun acc d => if d ∈ acc then acc else acc ++ [d]) [], ?_⟩
    have hmem : ∀ x, x ∈ devices.foldl
        (fun acc d => if d ∈ acc then acc else acc ++ [d]) [] ↔ x ∈ devices := by
      intro x; rw [dedupFold_mem]; simp
    have hnodup := dedupFold_nodup devices [] List.nodup_nil
    have hfin : (devices.foldl
        (fun acc d => if d ∈ acc then acc else acc ++ [d]) []).toFinset =
        devices.toFinset := by
      ext x; simp [List.mem_toFinset, hmem x]
    have hlen : (devices.foldl
        (fun acc d => if d ∈ acc then acc else acc ++ [d]) []).length =
        devices.toFinset.card := by
      rw [← hfin, List.toFinset_card_of_nodup hnodup]
    have hune : devices.foldl
        (fun acc d => if d ∈ acc then acc else acc ++ [d]) [] ≠ [] := by
      obtain ⟨d, tl, rfl⟩ : ∃ d tl, devices = d :: tl := by
        cases devices with
        | nil => exact absurd rfl hne
        | cons d tl => exact ⟨d, tl, rfl⟩
      intro h0
      have hd := (hmem d).mpr (by simp)
      rw [h0] at hd
      cases hd
    have hlen0 : ¬ devices.length = 0 := by
      simpa [List.length_eq_zero] using hne
    have hulen0 : ¬ (devices.foldl
        (fun acc d => if d ∈ acc then acc else acc ++ [d]) []).length = 0 := by
      simpa [List.length_eq_zero] using hune
    have hval : validateDevices devices = Except.ok
        (devices.foldl (fun acc d => if d ∈ acc then acc else acc ++ [d]) []) := by
      have hbody : validateDevices devices =
          if devices.length = 0 then Except.error "device list is empty"
          else if (devices.foldl
              (fun acc d => if d ∈ acc then acc else acc ++ [d]) []).length = 0 then
            Except.error "got zero valid devices"
          else Except.ok (devices.foldl
            (fun acc d => if d ∈ acc then acc else acc ++ [d]) []) := rfl
      rw [hbody, if_neg hlen0, if_neg hulen0]
    refine ⟨hval, hnodup, hfin, hlen, ?_⟩
    unfold startupDevices
    rw [hval]

/-- C8 witness: a concrete list with a repeated address validates to a
2-element effective set, and the empty list is a fatal startup error. -/
theorem C8_witness :
    (∃ u, validateDevices ["10.0.0.1", "10.0.0.2", "10.0.0.1"] = Except.ok u ∧
      u.Nodup ∧
      u.toFinset = (["10.0.0.1", "10.0.0.2", "10.0.0.1"] : List String).toFinset ∧
      u.length = (["10.0.0.1", "10.0.0.2", "10.0.0.1"] : List String).toFinset.card ∧
      startupDevices ["10.0.0.1", "10.0.0.2", "10.0.0.1"] =
        StartupResult.running u) ∧
    validateDevices [] = Except.error "device list is empty" ∧
    startupDevices [] =
      StartupResult.fatalExit "Device validation failed: device list is empty" :=
  ⟨(C8_dedup_and_empty_startup ["10.0.0.1", "10.0.0.2", "10.0.0.1"]).2 (by decide),
   (C8_dedup_and_empty_startup []).1 rfl⟩

end TapoExporter
